import Mathlib

/-!
Shallow embedding of the demo_test repository: the column-resolution and
geocode-and-render logic of `src/process_csv.py`, `src/sap_geocode.py` and the
demo table of `src/create_dataframe.py`.

A pandas DataFrame is modelled column-major: an ordered list of named columns,
each an ordered list of cells.  A cell is `Option Value`; `none` stands for a
missing entry (NaN dropped by `dropna`).  `Value.toStr` models Python
stringification (`astype(str)` and `str.format` conversion) on the value shapes
the scripts meet: strings, integers, and decimal floats carried as an integer
part plus fractional digits.
-/

inductive Value where
  | str (s : String)
  | int (n : Int)
  | float (ip : Int) (fp : String)
deriving DecidableEq, Repr

def Value.toStr : Value → String
  | .str s => s
  | .int n => toString n
  | .float ip fp => toString ip ++ "." ++ fp

abbrev Cell := Option Value

/-- `series.dropna().astype(str)`: drop missing cells, stringify the rest. -/
def colStrs (col : List Cell) : List String :=
  (col.filterMap id).map Value.toStr

/-- Full match of the regex `\d{n}` (n decimal digits, nothing else). -/
def matchesDigits (n : Nat) (s : String) : Bool :=
  s.length == n && s.data.all Char.isDigit

/-- Embeds `_is_nine_digit_column` (process_csv.py): all non-NA values,
stringified, are 9-digit strings, and there is at least one of them. -/
def is_nine_digit_column (col : List Cell) : Bool :=
  let values := colStrs col
  !values.isEmpty && values.all (matchesDigits 9)

/-- Embeds `is_six_digit_column` (sap_geocode.py): returns false on an empty
post-dropna column, otherwise requires every value to match `\d{6}`. -/
def is_six_digit_column (col : List Cell) : Bool :=
  let non_null := colStrs col
  if non_null.isEmpty then false
  else non_null.all (matchesDigits 6)

example : is_nine_digit_column [some (.str "123456789"), none] = true := by decide
example : is_nine_digit_column [none, none] = false := by decide
example : is_nine_digit_column [some (.str "")] = false := by decide
example : is_six_digit_column [some (.int 123456)] = true := by decide
example : is_six_digit_column [some (.int 11111)] = false := by decide
example : is_six_digit_column [some (.float 37 "7749")] = false := by decide

lemma matchesDigits_iff (n : Nat) (s : String) :
    matchesDigits n s = true ↔ s.length = n ∧ ∀ c ∈ s.data, c.isDigit := by
  simp [matchesDigits, Bool.and_eq_true, List.all_eq_true]

/-- C1: a column qualifies as identifier source iff, after dropping missing
values, it is non-empty and every remaining value, stringified, fully matches
the fixed-digit-length pattern (9 digits for process_csv, 6 for sap_geocode);
an all-null column never qualifies, and a column containing an empty-string
value never qualifies. -/
theorem digit_column_qualification (col : List Cell) :
    (is_nine_digit_column col = true ↔
      colStrs col ≠ [] ∧ ∀ s ∈ colStrs col, s.length = 9 ∧ ∀ c ∈ s.data, c.isDigit) ∧
    (is_six_digit_column col = true ↔
      colStrs col ≠ [] ∧ ∀ s ∈ colStrs col, s.length = 6 ∧ ∀ c ∈ s.data, c.isDigit) ∧
    ((∀ c ∈ col, c = none) →
      is_nine_digit_column col = false ∧ is_six_digit_column col = false) ∧
    (some (Value.str "") ∈ col →
      is_nine_digit_column col = false ∧ is_six_digit_column col = false) := by
  have h9 : is_nine_digit_column col = true ↔
      colStrs col ≠ [] ∧ ∀ s ∈ colStrs col, s.length = 9 ∧ ∀ c ∈ s.data, c.isDigit := by
    cases hval : colStrs col with
    | nil => simp [is_nine_digit_column, hval]
    | cons a l =>
        simp [is_nine_digit_column, hval, List.all_eq_true, matchesDigits_iff]
  have h6 : is_six_digit_column col = true ↔
      colStrs col ≠ [] ∧ ∀ s ∈ colStrs col, s.length = 6 ∧ ∀ c ∈ s.data, c.isDigit := by
    cases hval : colStrs col with
    | nil => simp [is_six_digit_column, hval]
    | cons a l =>
        simp [is_six_digit_column, hval, List.all_eq_true, matchesDigits_iff]
  refine ⟨h9, h6, ?_, ?_⟩
  · intro hall
    have hnil : colStrs col = [] := by
      unfold colStrs
      rw [List.map_eq_nil_iff, List.filterMap_eq_nil_iff]
      intro a ha
      simpa using hall a ha
    exact ⟨Bool.eq_false_iff.mpr fun h => (h9.mp h).1 hnil,
           Bool.eq_false_iff.mpr fun h => (h6.mp h).1 hnil⟩
  · intro hmem
    have hs : "" ∈ colStrs col :=
      List.mem_map.mpr ⟨Value.str "",
        List.mem_filterMap.mpr ⟨some (Value.str ""), hmem, rfl⟩, rfl⟩
    refine ⟨Bool.eq_false_iff.mpr fun h => ?_, Bool.eq_false_iff.mpr fun h => ?_⟩
    · exact (by decide : ¬ ("" : String).length = 9) ((h9.mp h).2 "" hs).1
    · exact (by decide : ¬ ("" : String).length = 6) ((h6.mp h).2 "" hs).1

theorem digit_column_qualification_witness :
    (is_nine_digit_column [some (.str "987654321")] = true ↔
      colStrs [some (.str "987654321")] ≠ [] ∧
        ∀ s ∈ colStrs [some (.str "987654321")],
          s.length = 9 ∧ ∀ c ∈ s.data, c.isDigit) ∧
    ((∀ c ∈ ([none, none] : List Cell), c = none) →
      is_nine_digit_column [none, none] = false ∧
        is_six_digit_column [none, none] = false) ∧
    (some (Value.str "") ∈ ([some (Value.str "")] : List Cell) →
      is_nine_digit_column [some (Value.str "")] = false ∧
        is_six_digit_column [some (Value.str "")] = false) :=
  ⟨(digit_column_qualification [some (.str "987654321")]).1,
   (digit_column_qualification [none, none]).2.2.1,
   (digit_column_qualification [some (Value.str "")]).2.2.2⟩

/-!
## Frames

A DataFrame is an ordered association list of named columns.  pandas keeps
column order under `rename`, `drop`, bracket selection and column assignment,
and all row access is by position, so a column-major list model is exact for
the operations these scripts perform.
-/

abbrev Frame := List (String × List Cell)

def colNames (df : Frame) : List String := df.map (·.1)

def hasCol (df : Frame) (name : String) : Bool := df.any (·.1 == name)

/-- `df[name]`: the values of the (first) column called `name`. -/
def colValues (df : Frame) (name : String) : List Cell :=
  ((df.find? (·.1 == name)).map (·.2)).getD []

/-- `df.drop(columns=[name])`. -/
def dropCol (df : Frame) (name : String) : Frame :=
  df.filter (·.1 != name)

/-- `df.rename(columns={old: new})`: renames in place, keeps order/values. -/
def renameCol (df : Frame) (old new : String) : Frame :=
  df.map (fun c => if c.1 == old then (new, c.2) else c)

/-- `df[names]`: project to the given columns, in the given order. -/
def selectCols (df : Frame) (names : List String) : Frame :=
  names.filterMap (fun n => (df.find? (·.1 == n)).map (fun c => (n, c.2)))

/-- `df[name] = values`: overwrite an existing column in place, else append. -/
def setCol (df : Frame) (name : String) (values : List Cell) : Frame :=
  if hasCol df name then
    df.map (fun c => if c.1 == name then (name, values) else c)
  else df ++ [(name, values)]

/-- Number of rows (pandas frames have equal-length columns). -/
def nRows (df : Frame) : Nat :=
  match df with
  | [] => 0
  | c :: _ => c.2.length

/-- All columns have exactly `n` entries. -/
def uniformRows (df : Frame) (n : Nat) : Prop := ∀ c ∈ df, c.2.length = n

/-!
## Operator input and column selection

Interactive prompting is modelled by a finite list of operator inputs.  The
source loops until a valid selection arrives; with a finite input list the
selection functions return `none` when the inputs run out while the loop is
still re-prompting.
-/

/-- Python `str.isdigit()`: non-empty and all characters are digits. -/
def pyIsDigit (s : String) : Bool := !s.isEmpty && s.data.all Char.isDigit

/-- Numeric value of an all-digit string, as `int(choice)` would parse it. -/
def pyToNat (s : String) : Nat :=
  s.data.foldl (fun acc c => acc * 10 + (c.toNat - 48)) 0

/-- Python `str.lower()` on the basic-latin names these tables carry. -/
def pyLower (s : String) : String := ⟨s.data.map Char.toLower⟩

/-- Python `str.strip()`: remove leading and trailing whitespace. -/
def pyStrip (s : String) : String :=
  ⟨((s.data.dropWhile Char.isWhitespace).reverse.dropWhile Char.isWhitespace).reverse⟩

/-- The `while True` index-selection loop of `prepare_dataframe`
(process_csv.py): accept a 1-based index into `cands`, re-prompt otherwise. -/
def selectByIndex (cands : List String) : List String → Option String
  | [] => none
  | choice :: rest =>
      if pyIsDigit choice ∧ 1 ≤ pyToNat choice ∧ pyToNat choice ≤ cands.length then
        cands.get? (pyToNat choice - 1)
      else selectByIndex cands rest

/-- The name-selection loop of `main` (sap_geocode.py): starting from
`sap_col = ""`, keep reading stripped names until one is a candidate. -/
def selectByNameLoop (cands : List String) : String → List String → Option String
  | cur, [] => if cur ∈ cands then some cur else none
  | cur, i :: rest =>
      if cur ∈ cands then some cur else selectByNameLoop cands (pyStrip i) rest

def selectByName (cands : List String) (inputs : List String) : Option String :=
  selectByNameLoop cands "" inputs

/-- Candidate choice of process_csv.py: a single candidate is used without
prompting, several trigger the index-selection loop. -/
def chooseByIndex (cands : List String) (inputs : List String) : Option String :=
  if cands.length == 1 then cands.head? else selectByIndex cands inputs

/-- Candidate choice of sap_geocode.py: a single candidate is used without
prompting, several trigger the name-selection loop. -/
def chooseByName (cands : List String) (inputs : List String) : Option String :=
  if cands.length == 1 then cands.head? else selectByName cands inputs

inductive PrepError where
  | valueError (msg : String)
  | needMoreInput
deriving DecidableEq, Repr

/-!
## Column resolution

`prepare_dataframe` (process_csv.py) and the resolution part of `main`
(sap_geocode.py), with the interactive prompts replaced by the operator-input
list and `raise ValueError` by `Except.error`.
-/

/-- The lowercase normalisation of latitude/longitude column names performed by
`prepare_dataframe` via `rename_map` (process_csv.py, lines 54-58). -/
def renameLatLngLower (df : Frame) : Frame :=
  df.map (fun c =>
    if pyLower c.1 == "latitude" || pyLower c.1 == "longitude"
    then (pyLower c.1, c.2) else c)

def requiredCols : List String := ["SapID", "latitude", "longitude"]

def joinComma (l : List String) : String := String.intercalate ", " l

/-- The required-columns check and final projection of `prepare_dataframe`
(process_csv.py, lines 85-89). -/
def finalizeRequired (df : Frame) : Except PrepError Frame :=
  let missing := requiredCols.filter (fun c => !hasCol df c)
  if missing.isEmpty then .ok (selectCols df requiredCols)
  else .error (.valueError ("Missing required columns: " ++ joinComma missing))

/-- The `Name`-column drop of `prepare_dataframe` (process_csv.py, lines
60-62): drop `Name` when present and not made of 9-digit strings. -/
def dropBadName9 (df : Frame) : Frame :=
  if hasCol df "Name" && !is_nine_digit_column (colValues df "Name")
  then dropCol df "Name" else df

/-- The `Name`-column drop of `main` (sap_geocode.py, lines 58-60). -/
def dropBadName6 (df : Frame) : Frame :=
  if hasCol df "Name" && !is_six_digit_column (colValues df "Name")
  then dropCol df "Name" else df

/-- The `latitude`/`longitude` presence check of `main` (sap_geocode.py,
lines 80-81). -/
def sap_require_latlng (df : Frame) : Except PrepError Frame :=
  if hasCol df "latitude" && hasCol df "longitude" then .ok df
  else .error (.valueError "CSV must contain 'latitude' and 'longitude' columns.")

/-- The candidate scan of `prepare_dataframe` (process_csv.py, lines 64-66). -/
def nineDigitCandidates (df : Frame) : List String :=
  (df.filter (fun c => is_nine_digit_column c.2)).map (·.1)

/-- The candidate scan of `main` (sap_geocode.py, lines 63-65). -/
def sixDigitCandidates (df : Frame) : List String :=
  (df.filter (fun c => is_six_digit_column c.2)).map (·.1)

/-- Embeds `prepare_dataframe` (process_csv.py): normalise latitude/longitude
names, drop a non-9-digit `Name` column, scan for 9-digit candidate columns,
resolve the SapID column, check required columns and project to them. -/
def prepare_dataframe (df : Frame) (inputs : List String) : Except PrepError Frame :=
  let df2 := dropBadName9 (renameLatLngLower df)
  let candidates := nineDigitCandidates df2
  if candidates.isEmpty then
    .error (.valueError "No column with 9-digit strings found.")
  else
    match chooseByIndex candidates inputs with
    | none => .error .needMoreInput
    | some sap_col => finalizeRequired (renameCol df2 sap_col "SapID")

/-- Embeds the resolution part of `main` (sap_geocode.py, lines 58-81): drop a
non-6-digit `Name` column, scan for 6-digit candidates, resolve the SapID
column by exact name, then require the literal `latitude`/`longitude` columns
(no case normalisation in this variant). -/
def sap_resolve (df : Frame) (inputs : List String) : Except PrepError Frame :=
  let df1 := dropBadName6 df
  let candidate_cols := sixDigitCandidates df1
  if candidate_cols.isEmpty then
    .error (.valueError "No column with 6-digit strings found.")
  else
    match chooseByName candidate_cols inputs with
    | none => .error .needMoreInput
    | some sap_col => sap_require_latlng (renameCol df1 sap_col "SapID")

/-- Embeds `create_dataframe` (create_dataframe.py): the fixed demo table.
The float literal -74.0060 stringifies in Python to "-74.006". -/
def create_dataframe : Frame :=
  [("Name", [some (.str "Alice"), some (.str "Bob"), some (.str "Charlie")]),
   ("SapID", [some (.int 11111), some (.int 22222), some (.int 33333)]),
   ("Latitude", [some (.float 37 "7749"), some (.float 34 "0522"), some (.float 40 "7128")]),
   ("Longitude", [some (.float (-122) "4194"), some (.float (-118) "2437"), some (.float (-74) "006")])]

/-!
## Geocoding

The HTTP call is the external collaborator: an oracle maps each request key
(the `latlng` query string) to a transport failure or an HTTP response
carrying a success flag and a `results` array.
-/

structure GeoResult where
  formatted_address : String
deriving DecidableEq, Repr

inductive HTTPResult where
  | transportError
  | response (ok : Bool) (results : List GeoResult)
deriving DecidableEq, Repr

/-- Per-row result handling of `reverse_geocode` (process_csv.py, lines
98-109): empty address on exception, non-ok response or empty results;
first formatted address otherwise. -/
def addressOfResult : HTTPResult → String
  | .transportError => ""
  | .response ok results =>
      if ok then
        match results with
        | r :: _ => r.formatted_address
        | [] => ""
      else ""

/-- Embeds `reverse_geocode` (sap_geocode.py, lines 40-51): `None` on
exception, non-ok response or empty results; first formatted address
otherwise. -/
def sap_reverse_geocode : HTTPResult → Option String
  | .transportError => none
  | .response ok results =>
      if !ok then none
      else
        match results with
        | r :: _ => some r.formatted_address
        | [] => none

/-- `str(x)` of a cell as an f-string interpolates it (`str(nan)` is "nan"). -/
def cellStr : Cell → String
  | some v => v.toStr
  | none => "nan"

/-- The request key built for row `i`: `f"{row['latitude']},{row['longitude']}"`. -/
def latlngAt (df : Frame) (i : Nat) : String :=
  cellStr ((colValues df "latitude").getD i none) ++ "," ++
    cellStr ((colValues df "longitude").getD i none)

/-- The address list built by the `iterrows` loop of `reverse_geocode`
(process_csv.py): one lookup per row, in row order, never aborting. -/
def geocodeAddresses (df : Frame) (oracle : String → HTTPResult) : List String :=
  (List.range (nRows df)).map (fun i => addressOfResult (oracle (latlngAt df i)))

/-- Frame-level `reverse_geocode` (process_csv.py, lines 92-114): copy the
frame, add the Address column, project to the four output columns. -/
def reverse_geocode (df : Frame) (oracle : String → HTTPResult) : Frame :=
  let addresses := geocodeAddresses df oracle
  let df2 := setCol df "Address" (addresses.map (fun a => some (Value.str a)))
  selectCols df2 ["SapID", "Address", "latitude", "longitude"]

/-- The per-row addresses computed by `df.apply` in `main` (sap_geocode.py,
lines 91-94): `None` where the lookup failed. -/
def sap_addresses (df : Frame) (oracle : String → HTTPResult) : List (Option String) :=
  (List.range (nRows df)).map (fun i => sap_reverse_geocode (oracle (latlngAt df i)))

/-!
## Template rendering

`str.format` on the fixed templates.  A template is the list of literal
segments and replacement fields that Python's format parser produces for the
source literal; formatting substitutes each field from the keyword
environment, failing (KeyError) if a field name is absent.
-/

inductive Tok where
  | lit (s : String)
  | field (name : String)
deriving DecidableEq, Repr

def lookupEnv (env : List (String × String)) (n : String) : Option String :=
  (env.find? (·.1 == n)).map (·.2)

def formatToks : List Tok → List (String × String) → Option String
  | [], _ => some ""
  | .lit s :: ts, env => (formatToks ts env).map (fun r => s ++ r)
  | .field n :: ts, env =>
      match lookupEnv env n, formatToks ts env with
      | some v, some r => some (v ++ r)
      | _, _ => none

/-- The module-level `TEMPLATE` literal of process_csv.py, split at its two
replacement fields. -/
def TEMPLATE : List Tok :=
  [.lit "Requestor Name: Obii weeks\nRequestor LanID: OXWC\nRequestor Phone number: 3052196892\nDescription of Access Issue: need code/contact info\nSAP Equipment ID:",
   .field "SapID",
   .lit "\nAddress Attempted:",
   .field "Address",
   .lit "\nDescription of work: Drone inspection\n"]

/-- The `template` literal of `main` (sap_geocode.py): a single triple-quoted
string whose interior double quotes, line breaks and 8-space indentation are
part of the text. -/
def sap_template : List Tok :=
  [.lit "\nRequestor Name: Obii weeks\n\"\n        \"Requestor LanID: OXWC\n\"\n        \"Requestor Phone number: 3052196892\n\"\n        \"Description of Access Issue: need code/contact info \n\"\n        \"SAP Equipment ID:",
   .field "SapID",
   .lit "\n\"\n        \"Address Attempted:",
   .field "Address",
   .lit "\n\"\n        \"Description of work: Drone inspection\n"]

/-- `TEMPLATE.format(**row)` in `main` (process_csv.py): the row environment
carries all four columns of the enriched frame. -/
def render_row (sapId address latitude longitude : String) : Option String :=
  formatToks TEMPLATE
    [("SapID", sapId), ("Address", address), ("latitude", latitude), ("longitude", longitude)]

/-- How `str.format` converts a kwarg that may be Python `None`. -/
def pyFormatArg : Option String → String
  | none => "None"
  | some s => s

/-- `template.format(SapID=row["SapID"], Address=row["Address"])` in `main`
(sap_geocode.py); a failed lookup left `None` in the Address column. -/
def sap_render (sapId : String) (address : Option String) : Option String :=
  formatToks sap_template [("SapID", sapId), ("Address", pyFormatArg address)]

/-!
## Object identity for the enrichment call

To state the frame effect of `reverse_geocode` (process_csv.py) — the caller's
frame is not mutated — frames are placed in an explicit heap: `df.copy()`
allocates a fresh frame, column assignment mutates only the frame at the
assigned reference, and bracket selection builds a new frame.
-/

abbrev Heap := List Frame

/-- `reverse_geocode` (process_csv.py) acting on the heap: reads the argument
frame, copies it, mutates the copy with the Address column, allocates the
projected result, and returns the heap after the call plus the result
reference. -/
def reverse_geocode_heap (h : Heap) (df : Nat) (oracle : String → HTTPResult) :
    Heap × Nat :=
  let frame := h.getD df []
  let addresses := geocodeAddresses frame oracle
  let copyRef := h.length
  let h1 := h ++ [frame]
  let h2 := h1.set copyRef
    (setCol (h1.getD copyRef []) "Address" ((addresses.map (fun a => some (Value.str a)))))
  let resRef := h2.length
  (h2 ++ [selectCols (h2.getD copyRef []) ["SapID", "Address", "latitude", "longitude"]],
   resRef)

/-!
## Per-row lookup handling (C3)
-/

/-- C3: for every row, a transport failure, a non-success HTTP response and a
successful response with zero results each yield an empty/absent address; a
successful response with results yields the first formatted address, the rest
are discarded; and enrichment produces exactly one address per row (no retry,
no abort). -/
theorem per_row_lookup_handling :
    (addressOfResult .transportError = "") ∧
    (∀ rs, addressOfResult (.response false rs) = "") ∧
    (addressOfResult (.response true []) = "") ∧
    (∀ r rs, addressOfResult (.response true (r :: rs)) = r.formatted_address) ∧
    (sap_reverse_geocode .transportError = none) ∧
    (∀ rs, sap_reverse_geocode (.response false rs) = none) ∧
    (sap_reverse_geocode (.response true []) = none) ∧
    (∀ r rs, sap_reverse_geocode (.response true (r :: rs)) = some r.formatted_address) ∧
    (∀ df oracle, (geocodeAddresses df oracle).length = nRows df) ∧
    (∀ df oracle, (sap_addresses df oracle).length = nRows df) :=
  ⟨rfl, fun _ => rfl, rfl, fun _ _ => rfl, rfl, fun _ => rfl, rfl, fun _ _ => rfl,
   fun df oracle => by simp [geocodeAddresses],
   fun df oracle => by simp [sap_addresses]⟩

/-!
## The demo table (C10)
-/

set_option maxRecDepth 20000 in
/-- C10: `create_dataframe` is the fixed 3-row table with columns Name, SapID,
Latitude, Longitude in that order; no column of it satisfies either qualifying
predicate (its SapID values are 5-digit integers, its names are non-numeric,
its coordinates stringify with a decimal point), so both variants fail on it
with the no-identifier-column error, whatever the operator would type. -/
theorem create_dataframe_demo_table :
    colNames create_dataframe = ["Name", "SapID", "Latitude", "Longitude"] ∧
    (create_dataframe.all fun c => c.2.length == 3) = true ∧
    (create_dataframe.all fun c =>
      !is_nine_digit_column c.2 && !is_six_digit_column c.2) = true ∧
    (∀ inputs, prepare_dataframe create_dataframe inputs =
      .error (.valueError "No column with 9-digit strings found.")) ∧
    (∀ inputs, sap_resolve create_dataframe inputs =
      .error (.valueError "No column with 6-digit strings found.")) :=
  ⟨rfl, by decide, by decide, fun _ => rfl, fun _ => rfl⟩

/-!
## Rendering (C4)
-/

set_option maxRecDepth 20000 in
/-- C4 (counterexample): in the sap_geocode variant a failed lookup leaves
Python `None` in the Address column, and `str.format` renders it as the text
`None`, not as an empty string — the render differs from the
empty-address render the claim predicts. -/
theorem sap_render_none_not_empty :
    sap_render "123456" none ≠ sap_render "123456" (some "") := by decide

set_option maxRecDepth 20000 in
/-- C4 (amended): rendering substitutes exactly the identifier and the address
into the fixed template and never fails; in process_csv a failed lookup stores
the empty string, so the address field renders empty while the identifier is
still substituted correctly, whereas in sap_geocode a failed lookup stores
`None` and the address field renders as the text `None`. -/
theorem render_substitution (sapId address latitude longitude : String) :
    render_row sapId address latitude longitude =
      some ("Requestor Name: Obii weeks\nRequestor LanID: OXWC\nRequestor Phone number: 3052196892\nDescription of Access Issue: need code/contact info\nSAP Equipment ID:" ++
        (sapId ++ ("\nAddress Attempted:" ++
          (address ++ "\nDescription of work: Drone inspection\n")))) ∧
    (∀ addr : Option String, ∃ out, sap_render sapId addr = some out) ∧
    sap_render sapId none =
      some ("\nRequestor Name: Obii weeks\n\"\n        \"Requestor LanID: OXWC\n\"\n        \"Requestor Phone number: 3052196892\n\"\n        \"Description of Access Issue: need code/contact info \n\"\n        \"SAP Equipment ID:" ++
        (sapId ++ ("\n\"\n        \"Address Attempted:" ++
          ("None" ++ "\n\"\n        \"Description of work: Drone inspection\n")))) :=
  ⟨rfl, fun _ => ⟨_, rfl⟩, rfl⟩

/-!
## Selection policy (C2)
-/

lemma selectByIndex_mem (cands : List String) :
    ∀ inputs c, selectByIndex cands inputs = some c → c ∈ cands := by
  intro inputs
  induction inputs with
  | nil => intro c h; simp [selectByIndex] at h
  | cons i rest ih =>
      intro c h
      by_cases hv : pyIsDigit i = true ∧ 1 ≤ pyToNat i ∧ pyToNat i ≤ cands.length
      · rw [selectByIndex, if_pos hv] at h
        exact List.get?_mem h
      · rw [selectByIndex, if_neg hv] at h
        exact ih c h

lemma selectByNameLoop_mem (cands : List String) :
    ∀ inputs cur c, selectByNameLoop cands cur inputs = some c → c ∈ cands := by
  intro inputs
  induction inputs with
  | nil =>
      intro cur c h
      rw [selectByNameLoop] at h
      by_cases hm : cur ∈ cands
      · rw [if_pos hm] at h; cases h; exact hm
      · rw [if_neg hm] at h; cases h
  | cons i rest ih =>
      intro cur c h
      rw [selectByNameLoop] at h
      by_cases hm : cur ∈ cands
      · rw [if_pos hm] at h; cases h; exact hm
      · rw [if_neg hm] at h; exact ih (pyStrip i) c h

/-- C2: zero qualifying columns fail with the no-identifier error; a single
qualifying column is selected without consuming operator input; with several
candidates an invalid input is re-prompted, never silently defaulted; and any
column finally selected belongs to the candidate list (both variants). -/
theorem column_selection_policy :
    (∀ (df : Frame) (inputs : List String),
      nineDigitCandidates (dropBadName9 (renameLatLngLower df)) = [] →
      prepare_dataframe df inputs =
        .error (.valueError "No column with 9-digit strings found.")) ∧
    (∀ (df : Frame) (inputs : List String),
      sixDigitCandidates (dropBadName6 df) = [] →
      sap_resolve df inputs =
        .error (.valueError "No column with 6-digit strings found.")) ∧
    (∀ (c : String) (inputs : List String), chooseByIndex [c] inputs = some c) ∧
    (∀ (c : String) (inputs : List String), chooseByName [c] inputs = some c) ∧
    (∀ cands inputs c, chooseByIndex cands inputs = some c → c ∈ cands) ∧
    (∀ cands inputs c, chooseByName cands inputs = some c → c ∈ cands) ∧
    (∀ cands choice rest,
      ¬(pyIsDigit choice = true ∧ 1 ≤ pyToNat choice ∧ pyToNat choice ≤ cands.length) →
      selectByIndex cands (choice :: rest) = selectByIndex cands rest) ∧
    (∀ cands cur i rest, cur ∉ cands →
      selectByNameLoop cands cur (i :: rest) = selectByNameLoop cands (pyStrip i) rest) := by
  refine ⟨?_, ?_, ?_, ?_, ?_, ?_, ?_, ?_⟩
  · intro df inputs h
    simp [prepare_dataframe, h]
  · intro df inputs h
    simp [sap_resolve, h]
  · intro c inputs; rfl
  · intro c inputs; rfl
  · intro cands inputs c h
    rw [chooseByIndex] at h
    by_cases h1 : (cands.length == 1) = true
    · rw [if_pos h1] at h
      cases cands with
      | nil => simp at h
      | cons a l => cases h; exact List.mem_cons_self _ _
    · rw [if_neg h1] at h
      exact selectByIndex_mem cands inputs c h
  · intro cands inputs c h
    rw [chooseByName] at h
    by_cases h1 : (cands.length == 1) = true
    · rw [if_pos h1] at h
      cases cands with
      | nil => simp at h
      | cons a l => cases h; exact List.mem_cons_self _ _
    · rw [if_neg h1] at h
      exact selectByNameLoop_mem cands inputs "" c h
  · intro cands choice rest h
    rw [selectByIndex, if_neg h]
  · intro cands cur i rest h
    rw [selectByNameLoop, if_neg h]

set_option maxRecDepth 20000 in
theorem column_selection_policy_witness :
    prepare_dataframe create_dataframe [] =
      .error (.valueError "No column with 9-digit strings found.") ∧
    sap_resolve create_dataframe [] =
      .error (.valueError "No column with 6-digit strings found.") ∧
    "b" ∈ ["a", "b"] ∧
    "x" ∈ ["a", "x"] ∧
    selectByIndex ["a", "b"] ["oops", "2"] = selectByIndex ["a", "b"] ["2"] ∧
    selectByNameLoop ["a", "x"] "" ["x"] = selectByNameLoop ["a", "x"] (pyStrip "x") [] :=
  ⟨column_selection_policy.1 create_dataframe [] (by decide),
   column_selection_policy.2.1 create_dataframe [] (by decide),
   column_selection_policy.2.2.2.2.1 ["a", "b"] ["oops", "2"] "b" (by decide),
   column_selection_policy.2.2.2.2.2.1 ["a", "x"] ["x"] "x" (by decide),
   column_selection_policy.2.2.2.2.2.2.1 ["a", "b"] "oops" ["2"] (by decide),
   column_selection_policy.2.2.2.2.2.2.2 ["a", "x"] "" "x" [] (by decide)⟩

/-!
## The Name column and case normalisation (C6, C7)
-/

lemma hasCol_dropCol (df : Frame) (n : String) : hasCol (dropCol df n) n = false := by
  rw [Bool.eq_false_iff]
  intro h
  obtain ⟨x, hx, heq⟩ := List.any_eq_true.mp h
  obtain ⟨-, hne⟩ := List.mem_filter.mp hx
  rw [bne_iff_ne] at hne
  exact hne (by simpa using heq)

/-- The demo table of the C6 scenario: a non-digit `Name` column, a 9-digit
`asset_num` column, and coordinates. -/
def demoNameFrame : Frame :=
  [("Name", [some (.str "foo"), some (.str "bar")]),
   ("asset_num", [some (.str "123456789"), some (.str "987654321")]),
   ("latitude", [some (.float 37 "7749"), some (.float 34 "0522")]),
   ("longitude", [some (.float (-122) "4194"), some (.float (-118) "2437")])]

set_option maxRecDepth 20000 in
/-- C6: a `Name` column whose non-missing values do not all match the pattern
is dropped before candidate scanning (both variants); consequently, on a table
with columns Name (non-digit), asset_num (9-digit), latitude, longitude, the
asset_num column is selected as the identifier and Name is dropped. -/
theorem name_column_drop :
    (∀ df : Frame, hasCol df "Name" = true →
      is_nine_digit_column (colValues df "Name") = false →
      hasCol (dropBadName9 df) "Name" = false) ∧
    (∀ df : Frame, hasCol df "Name" = true →
      is_six_digit_column (colValues df "Name") = false →
      hasCol (dropBadName6 df) "Name" = false) ∧
    prepare_dataframe demoNameFrame [] =
      .ok [("SapID", [some (.str "123456789"), some (.str "987654321")]),
           ("latitude", [some (.float 37 "7749"), some (.float 34 "0522")]),
           ("longitude", [some (.float (-122) "4194"), some (.float (-118) "2437")])] := by
  refine ⟨?_, ?_, by rfl⟩
  · intro df h1 h2
    rw [dropBadName9, if_pos (by rw [h1, h2]; rfl)]
    exact hasCol_dropCol df "Name"
  · intro df h1 h2
    rw [dropBadName6, if_pos (by rw [h1, h2]; rfl)]
    exact hasCol_dropCol df "Name"

set_option maxRecDepth 20000 in
theorem name_column_drop_witness :
    hasCol (dropBadName9 demoNameFrame) "Name" = false ∧
    hasCol (dropBadName6 demoNameFrame) "Name" = false :=
  ⟨name_column_drop.1 demoNameFrame (by decide) (by decide),
   name_column_drop.2.1 demoNameFrame (by decide) (by decide)⟩

/-- A resolvable sap_geocode input whose coordinate columns are capitalised. -/
def sapCapitalFrame : Frame :=
  [("asset", [some (.str "123456"), some (.str "654321")]),
   ("Latitude", [some (.float 37 "7749"), some (.float 34 "0522")]),
   ("Longitude", [some (.float (-122) "4194"), some (.float (-118) "2437")])]

/-- A resolvable process_csv input whose coordinate columns are capitalised. -/
def procCapitalFrame : Frame :=
  [("asset_num", [some (.str "123456789"), some (.str "987654321")]),
   ("Latitude", [some (.float 37 "7749"), some (.float 34 "0522")]),
   ("Longitude", [some (.float (-122) "4194"), some (.float (-118) "2437")])]

set_option maxRecDepth 20000 in
/-- C7 (counterexample): the sap_geocode variant performs no case
normalisation: a table with capitalised `Latitude`/`Longitude` columns and a
valid 6-digit identifier column does not pass resolution there — it fails the
required-columns check, contradicting the claim for that variant. -/
theorem sap_capital_latlng_rejected :
    sap_resolve sapCapitalFrame [] =
      .error (.valueError "CSV must contain 'latitude' and 'longitude' columns.") := by
  rfl

set_option maxRecDepth 20000 in
/-- C7 (amended): only the process_csv variant renames columns that
case-insensitively equal latitude/longitude to the canonical lowercase names
before its required-columns check (names are lowercased, values untouched), so
a capitalised table passes resolution there; the sap_geocode variant performs
no such normalisation and rejects the same shape of table. -/
theorem latlng_case_normalisation :
    (∀ df : Frame, colNames (renameLatLngLower df) = (colNames df).map
      (fun n => if pyLower n == "latitude" || pyLower n == "longitude"
                then pyLower n else n)) ∧
    (∀ df : Frame, (renameLatLngLower df).map (·.2) = df.map (·.2)) ∧
    prepare_dataframe procCapitalFrame [] =
      .ok [("SapID", [some (.str "123456789"), some (.str "987654321")]),
           ("latitude", [some (.float 37 "7749"), some (.float 34 "0522")]),
           ("longitude", [some (.float (-122) "4194"), some (.float (-118) "2437")])] ∧
    sap_resolve procCapitalFrame [] =
      .error (.valueError "No column with 6-digit strings found.") := by
  refine ⟨?_, ?_, by rfl, by rfl⟩
  · intro df
    simp only [renameLatLngLower, colNames, List.map_map]
    congr 1
    funext c
    simp [apply_ite Prod.fst]
  · intro df
    simp only [renameLatLngLower, List.map_map]
    congr 1
    funext c
    simp [apply_ite Prod.snd]

/-!
## The required-columns check (C8)
-/

/-- C8: after the identifier rename, process_csv verifies SapID, latitude and
longitude are present and otherwise fails with a message that joins exactly
the absent required columns; sap_geocode checks latitude/longitude presence
with its fixed message naming both columns; when nothing is missing,
resolution proceeds. -/
theorem required_columns_check :
    (∀ df : Frame, requiredCols.filter (fun c => !hasCol df c) = [] →
      finalizeRequired df = .ok (selectCols df requiredCols)) ∧
    (∀ (df : Frame) (m : List String),
      requiredCols.filter (fun c => !hasCol df c) = m → m ≠ [] →
      finalizeRequired df =
        .error (.valueError ("Missing required columns: " ++ joinComma m))) ∧
    (∀ (df : Frame) (c : String),
      c ∈ requiredCols.filter (fun cc => !hasCol df cc) ↔
        c ∈ requiredCols ∧ hasCol df c = false) ∧
    (∀ df : Frame, (hasCol df "latitude" && hasCol df "longitude") = true →
      sap_require_latlng df = .ok df) ∧
    (∀ df : Frame, (hasCol df "latitude" && hasCol df "longitude") = false →
      sap_require_latlng df =
        .error (.valueError "CSV must contain 'latitude' and 'longitude' columns.")) := by
  refine ⟨?_, ?_, ?_, ?_, ?_⟩
  · intro df h
    simp [finalizeRequired, h]
  · intro df m h hm
    rw [finalizeRequired]
    simp only [h]
    rw [if_neg (by simpa [List.isEmpty_iff] using hm)]
  · intro df c
    simp [List.mem_filter]
  · intro df h
    simp [sap_require_latlng, h]
  · intro df h
    simp [sap_require_latlng, h]

theorem required_columns_check_witness :
    finalizeRequired
      [("SapID", [some (Value.str "123456789")]), ("latitude", [some (Value.float 1 "0")])] =
      .error (.valueError "Missing required columns: longitude") ∧
    finalizeRequired
      [("SapID", [some (Value.str "123456789")]), ("latitude", [some (Value.float 1 "0")]),
       ("longitude", [some (Value.float 2 "0")])] =
      .ok (selectCols
        [("SapID", [some (Value.str "123456789")]), ("latitude", [some (Value.float 1 "0")]),
         ("longitude", [some (Value.float 2 "0")])] requiredCols) ∧
    sap_require_latlng [("SapID", [some (Value.str "123456")])] =
      .error (.valueError "CSV must contain 'latitude' and 'longitude' columns.") :=
  ⟨required_columns_check.2.1
      [("SapID", [some (Value.str "123456789")]), ("latitude", [some (Value.float 1 "0")])]
      ["longitude"] (by decide) (by decide),
   required_columns_check.1
      [("SapID", [some (Value.str "123456789")]), ("latitude", [some (Value.float 1 "0")]),
       ("longitude", [some (Value.float 2 "0")])] (by decide),
   required_columns_check.2.2.2.2 [("SapID", [some (Value.str "123456")])] (by decide)⟩

/-!
## The enrichment call does not mutate its argument (C9)
-/

lemma getD_concat_self (h : Heap) (x : Frame) :
    (h ++ [x]).getD h.length [] = x := by
  rw [List.getD_eq_getElem?_getD, List.getElem?_concat_length]
  rfl

lemma getD_set_append_self (h : Heap) (x y : Frame) :
    ((h ++ [x]).set h.length y).getD h.length [] = y := by
  have hl : h.length < (h ++ [x]).length := by
    simp only [List.length_append, List.length_cons, List.length_nil]
    omega
  rw [List.getD_eq_getElem?_getD, List.getElem?_set_self hl]
  rfl

/-- C9: `reverse_geocode` (process_csv.py) copies the resolved frame before
adding the Address column, so after the call the frame at the argument
reference is unchanged, and the returned reference holds exactly the frame the
pure `reverse_geocode` computes from the argument. -/
theorem reverse_geocode_heap_no_mutation (h : Heap) (r : Nat)
    (oracle : String → HTTPResult) (hr : r < h.length) :
    (reverse_geocode_heap h r oracle).1.getD r [] = h.getD r [] ∧
    (reverse_geocode_heap h r oracle).1.getD (reverse_geocode_heap h r oracle).2 [] =
      reverse_geocode (h.getD r []) oracle := by
  simp only [reverse_geocode_heap]
  have hne : h.length ≠ r := Nat.ne_of_gt hr
  constructor
  · rw [List.getD_eq_getElem?_getD,
      List.getElem?_append_left (by simp only [List.length_set, List.length_append,
        List.length_cons, List.length_nil]; omega),
      List.getElem?_set_ne hne,
      List.getElem?_append_left hr]
    exact (List.getD_eq_getElem?_getD _ _ _).symm
  · rw [getD_concat_self h (h.getD r [])]
    rw [getD_set_append_self]
    rw [getD_concat_self]
    rfl

theorem reverse_geocode_heap_no_mutation_witness :
    (reverse_geocode_heap [create_dataframe] 0 (fun _ => .transportError)).1.getD 0 [] =
      [create_dataframe].getD 0 [] :=
  (reverse_geocode_heap_no_mutation [create_dataframe] 0 (fun _ => .transportError)
    (by decide)).1

/-!
## Rows are never dropped, added or reordered (C5)

Every column that survives resolution carries its full cell sequence verbatim
from the input frame, and enrichment carries the three resolved columns
verbatim while adding one Address column of the same length; row count and
row order are therefore preserved end to end.
-/

lemma hasCol_iff (df : Frame) (n : String) :
    hasCol df n = true ↔ n ∈ colNames df := by
  simp [hasCol, colNames, List.any_eq_true, List.mem_map]

lemma mem_values_renameLatLngLower (df : Frame) :
    ∀ c ∈ renameLatLngLower df, ∃ nm, (nm, c.2) ∈ df := by
  intro c hc
  obtain ⟨c0, hc0, heq⟩ := List.mem_map.mp hc
  by_cases h : (pyLower c0.1 == "latitude" || pyLower c0.1 == "longitude") = true
  · rw [if_pos h] at heq
    exact ⟨c0.1, by rw [← heq]; exact hc0⟩
  · rw [if_neg h] at heq
    exact ⟨c0.1, by rw [← heq]; exact hc0⟩

lemma mem_dropBadName9 (df : Frame) : ∀ c ∈ dropBadName9 df, c ∈ df := by
  intro c hc
  rw [dropBadName9] at hc
  by_cases h : (hasCol df "Name" && !is_nine_digit_column (colValues df "Name")) = true
  · rw [if_pos h] at hc
    exact (List.mem_filter.mp hc).1
  · rwa [if_neg h] at hc

lemma mem_values_renameCol (df : Frame) (o nw : String) :
    ∀ c ∈ renameCol df o nw, ∃ nm, (nm, c.2) ∈ df := by
  intro c hc
  obtain ⟨c0, hc0, heq⟩ := List.mem_map.mp hc
  by_cases h : (c0.1 == o) = true
  · rw [if_pos h] at heq
    exact ⟨c0.1, by rw [← heq]; exact hc0⟩
  · rw [if_neg h] at heq
    exact ⟨c0.1, by rw [← heq]; exact hc0⟩

lemma mem_values_selectCols (df : Frame) (names : List String) :
    ∀ c ∈ selectCols df names, ∃ nm, (nm, c.2) ∈ df := by
  intro c hc
  obtain ⟨nm, hnm, heq⟩ := List.mem_filterMap.mp hc
  cases hfind : df.find? (·.1 == nm) with
  | none => rw [hfind] at heq; cases heq
  | some c0 =>
      rw [hfind] at heq
      cases heq
      exact ⟨c0.1, by simpa using List.mem_of_find?_eq_some hfind⟩

lemma selectCols_names (df : Frame) (names : List String)
    (h : ∀ nm ∈ names, hasCol df nm = true) :
    colNames (selectCols df names) = names := by
  induction names with
  | nil => rfl
  | cons nm rest ih =>
      have hnm := h nm (List.mem_cons_self _ _)
      obtain ⟨x, hx, hpx⟩ := List.any_eq_true.mp hnm
      obtain ⟨c0, hfind⟩ : ∃ c0, df.find? (·.1 == nm) = some c0 :=
        Option.isSome_iff_exists.mp (List.find?_isSome.mpr ⟨x, hx, hpx⟩)
      simp only [selectCols, List.filterMap_cons, hfind, Option.map_some']
      have := ih (fun m hm => h m (List.mem_cons_of_mem _ hm))
      simpa [colNames, selectCols] using this

lemma frame_of_three_names (g : Frame)
    (h : colNames g = ["SapID", "latitude", "longitude"]) :
    ∃ a b c, g = [("SapID", a), ("latitude", b), ("longitude", c)] := by
  cases g with
  | nil => simp [colNames] at h
  | cons p g1 =>
    cases g1 with
    | nil => simp [colNames] at h
    | cons q g2 =>
      cases g2 with
      | nil => simp [colNames] at h
      | cons r g3 =>
        cases g3 with
        | cons s g4 => simp [colNames] at h
        | nil =>
            obtain ⟨h1, h2, h3⟩ : p.1 = "SapID" ∧ q.1 = "latitude" ∧ r.1 = "longitude" := by
              simpa [colNames] using h
            exact ⟨p.2, q.2, r.2, by rw [← h1, ← h2, ← h3]⟩

/-- C5: resolution may drop or rename columns but carries every surviving
column's full cell sequence verbatim from the input (so no row is dropped,
added or reordered and the row count is unchanged), and enrichment adds
exactly one Address column of the same length while carrying the three
resolved columns verbatim. -/
theorem rows_preserved (df : Frame) (inputs : List String) (g : Frame) (n : Nat)
    (hu : uniformRows df n) (hok : prepare_dataframe df inputs = .ok g) :
    colNames g = requiredCols ∧
    uniformRows g n ∧
    (∀ c ∈ g, ∃ nm, (nm, c.2) ∈ df) ∧
    (∀ oracle : String → HTTPResult,
      colNames (reverse_geocode g oracle) = ["SapID", "Address", "latitude", "longitude"] ∧
      uniformRows (reverse_geocode g oracle) n ∧
      ∀ c ∈ g, c ∈ reverse_geocode g oracle) := by
  simp only [prepare_dataframe] at hok
  split at hok
  · exact absurd hok (by simp)
  · split at hok
    · exact absurd hok (by simp)
    · rename_i sap_col hchoose
      simp only [finalizeRequired] at hok
      split at hok
      · rename_i hmiss
        injection hok with hg
        subst hg
        have hnil : requiredCols.filter
            (fun c => !hasCol (renameCol (dropBadName9 (renameLatLngLower df))
              sap_col "SapID") c) = [] := by
          simpa [List.isEmpty_iff] using hmiss
        have hpres : ∀ nm ∈ requiredCols,
            hasCol (renameCol (dropBadName9 (renameLatLngLower df)) sap_col "SapID") nm
              = true := by
          intro nm hnm
          by_contra hcon
          have hmem : nm ∈ requiredCols.filter
              (fun c => !hasCol (renameCol (dropBadName9 (renameLatLngLower df))
                sap_col "SapID") c) :=
            List.mem_filter.mpr ⟨hnm, by simp [Bool.eq_false_iff.mpr hcon]⟩
          rw [hnil] at hmem
          cases hmem
        have hnames := selectCols_names _ requiredCols hpres
        have hprov : ∀ c ∈ selectCols
            (renameCol (dropBadName9 (renameLatLngLower df)) sap_col "SapID")
            requiredCols, ∃ nm, (nm, c.2) ∈ df := by
          intro c hc
          obtain ⟨nm1, h1⟩ := mem_values_selectCols _ _ c hc
          obtain ⟨nm2, h2⟩ := mem_values_renameCol _ _ _ (nm1, c.2) h1
          have h3 := mem_dropBadName9 _ _ h2
          obtain ⟨nm3, h4⟩ := mem_values_renameLatLngLower df _ h3
          exact ⟨nm3, h4⟩
        have hug : uniformRows (selectCols
            (renameCol (dropBadName9 (renameLatLngLower df)) sap_col "SapID")
            requiredCols) n := by
          intro c hc
          obtain ⟨nm, h⟩ := hprov c hc
          exact hu (nm, c.2) h
        refine ⟨hnames, hug, hprov, fun oracle => ?_⟩
        obtain ⟨a, b, c, hgeq⟩ := frame_of_three_names _ hnames
        have ha : a.length = n := hug ("SapID", a) (by rw [hgeq]; simp)
        have hb : b.length = n := hug ("latitude", b) (by rw [hgeq]; simp)
        have hcl : c.length = n := hug ("longitude", c) (by rw [hgeq]; simp)
        rw [hgeq]
        have henr : reverse_geocode [("SapID", a), ("latitude", b), ("longitude", c)]
            oracle =
            [("SapID", a),
             ("Address",
              (geocodeAddresses [("SapID", a), ("latitude", b), ("longitude", c)]
                oracle).map (fun s => some (Value.str s))),
             ("latitude", b), ("longitude", c)] := rfl
        refine ⟨by rw [henr]; rfl, ?_, ?_⟩
        · rw [henr]
          intro cc hcc
          rcases (by simpa using hcc :
              cc = ("SapID", a) ∨
              cc = ("Address",
                (geocodeAddresses [("SapID", a), ("latitude", b), ("longitude", c)]
                  oracle).map (fun s => some (Value.str s))) ∨
              cc = ("latitude", b) ∨ cc = ("longitude", c)) with rfl | rfl | rfl | rfl
          · exact ha
          · simpa [geocodeAddresses, nRows] using ha
          · exact hb
          · exact hcl
        · intro cc hcc
          rw [henr]
          rcases (by simpa using hcc :
              cc = ("SapID", a) ∨ cc = ("latitude", b) ∨ cc = ("longitude", c)) with
            rfl | rfl | rfl <;> simp
      · exact absurd hok (by simp)

theorem rows_preserved_witness :
    colNames [("SapID", [some (Value.str "123456789"), some (Value.str "987654321")]),
      ("latitude", [some (Value.float 37 "7749"), some (Value.float 34 "0522")]),
      ("longitude", [some (Value.float (-122) "4194"), some (Value.float (-118) "2437")])]
      = requiredCols :=
  (rows_preserved demoNameFrame []
    [("SapID", [some (Value.str "123456789"), some (Value.str "987654321")]),
     ("latitude", [some (Value.float 37 "7749"), some (Value.float 34 "0522")]),
     ("longitude", [some (Value.float (-122) "4194"), some (Value.float (-118) "2437")])]
    2 (by unfold uniformRows; decide) (by rfl)).1
